import Mathlib

/-!
Verification of the stock-auto-trading-kiwoom repository against its
natural-language specification.

Shallow embedding conventions:
* Python `float` arithmetic is modelled with `ℚ`; Python `int` with `ℤ`/`ℕ`.
* Python dictionaries keyed by strings are modelled as total functions
  `String → Option α` (lookup via `.get`) or, for the position book whose
  absent entries are immediately initialised to zero, `String → Position`
  with the zero record as the default of the total map.
* Fallible code (a Python statement that can raise) returns `Option`.
* Division by zero in `ℚ` follows Lean's `x / 0 = 0` convention; the one
  place where Python would raise `ZeroDivisionError` on a float division
  (`RiskManager.calculate_position_size`) is modelled explicitly with
  `Option`.
-/

namespace KiwoomAuto

/-- A trading signal, as consumed by `RiskManager.calculate_position_size`
(src/app/auto.py). `action` is read with `signal['action']`; `confidence`
is read with `signal.get('confidence', 0.5)`, hence optional with default
1/2. -/
structure Signal where
  action : String
  confidence : Option ℚ
deriving DecidableEq, Repr

/-- Python `int(x)` on a float: truncation toward zero. -/
def ratTrunc (q : ℚ) : ℤ :=
  if q < 0 then ⌈q⌉ else ⌊q⌋

/-- Embedding of `RiskManager.calculate_position_size(signal,
account_balance, current_price)` (src/app/auto.py lines 316–330).
`ratio` is `self.max_position_ratio`.  The source has no guard on
`current_price`: when the action is BUY and `current_price == 0` the
division `adjusted_investment / current_price` raises
`ZeroDivisionError`, modelled as `none`. -/
def calculate_position_size (ratio : ℚ) (signal : Signal)
    (account_balance current_price : ℚ) : Option ℤ :=
  if signal.action ≠ "BUY" then some 0
  else
    let max_investment := account_balance * ratio
    let confidence_factor := signal.confidence.getD (1/2)
    let adjusted_investment := max_investment * confidence_factor
    if current_price = 0 then none
    else some (max 0 (ratTrunc (adjusted_investment / current_price)))

/-- A per-code position, `self.positions[code]` in `OrderManager`
(src/app/auto.py): `{'quantity': 0, 'avg_price': 0}` initially. -/
structure Position where
  quantity : ℤ
  avg_price : ℚ
deriving DecidableEq, Repr

/-- Embedding of the per-position core of `OrderManager.update_position`
(src/app/auto.py lines 421–436), acting on the entry for one code. -/
def update_position (pos : Position) (action : String) (qty : ℤ) (price : ℚ) :
    Position :=
  if action = "BUY" then
    let total_value := (pos.quantity : ℚ) * pos.avg_price + (qty : ℚ) * price
    let q : ℤ := pos.quantity + qty
    { quantity := q, avg_price := if q > 0 then total_value / (q : ℚ) else 0 }
  else if action = "SELL" then
    let q : ℤ := pos.quantity - qty
    if q ≤ 0 then { quantity := 0, avg_price := 0 }
    else { quantity := q, avg_price := pos.avg_price }
  else pos

/-- The position book `self.positions`.  Python keeps a dict and runs
`if code not in self.positions: self.positions[code] = {'quantity': 0,
'avg_price': 0}` before every update, so absent codes behave exactly like
the zero record: we model the book as a total map whose initial value is
the zero record everywhere. -/
def emptyPositions : String → Position := fun _ => { quantity := 0, avg_price := 0 }

/-- `OrderManager.update_position(code, action, quantity, price)` acting on
the whole book. -/
def update_positions (m : String → Position) (code action : String)
    (qty : ℤ) (price : ℚ) : String → Position :=
  fun k => if k = code then update_position (m k) action qty price else m k

/-- One fill event fed to `update_position`. -/
structure Fill where
  code : String
  action : String
  qty : ℤ
  price : ℚ

/-- Applying a sequence of fills to the book, in order. -/
def apply_fills (m : String → Position) (fs : List Fill) : String → Position :=
  fs.foldl (fun m f => update_positions m f.code f.action f.qty f.price) m

/-- The position invariant of the spec: quantity is never negative, and a
zero quantity forces a zero average price. -/
def PosInv (p : Position) : Prop :=
  0 ≤ p.quantity ∧ (p.quantity = 0 → p.avg_price = 0)

instance (p : Position) : Decidable (PosInv p) := by
  unfold PosInv; infer_instance

/-! ### RSI (`DataManager.calculate_rsi`, src/app/auto.py lines 180–200) -/

/-- `self.price_data[code][-period-1:]` — the last `n` elements of a list. -/
def lastN (n : ℕ) (l : List ℚ) : List ℚ := l.drop (l.length - n)

/-- `np.diff(prices)` — consecutive deltas `prices[i+1] - prices[i]`. -/
def deltasOf (l : List ℚ) : List ℚ := List.zipWith (fun a b => a - b) l.tail l

/-- `np.where(deltas > 0, deltas, 0)`. -/
def gainsOf (ds : List ℚ) : List ℚ := ds.map (fun d => if 0 < d then d else 0)

/-- `np.where(deltas < 0, -deltas, 0)`. -/
def lossesOf (ds : List ℚ) : List ℚ := ds.map (fun d => if d < 0 then -d else 0)

/-- `np.mean` — sum divided by length (with Lean's `x / 0 = 0` when the
list is empty, which only arises for `period = 0`). -/
def listMean (l : List ℚ) : ℚ := l.sum / (l.length : ℚ)

/-- Embedding of `DataManager.calculate_rsi` (src/app/auto.py
lines 180–200): return 50 when fewer than `period + 1` samples exist;
otherwise take the last `period + 1` prices, diff, split into gains and
losses, average, return 100 when the average loss is 0, else
`100 - 100 / (1 + avg_gain / avg_loss)`. -/
def calculate_rsi (prices : List ℚ) (period : ℕ) : ℚ :=
  if prices.length < period + 1 then 50
  else
    let ds := deltasOf (lastN (period + 1) prices)
    let avg_gain := listMean (gainsOf ds)
    let avg_loss := listMean (lossesOf ds)
    if avg_loss = 0 then 100
    else 100 - 100 / (1 + avg_gain / avg_loss)

/-- The spec's reference definition of RSI, written from the spec's words:
over the last `period+1` prices take consecutive deltas, split into gains
and losses, average each **over the period**, return
`100 − 100/(1+avgGain/avgLoss)`; fewer than `period+1` samples give the
neutral 50, and an exactly-zero average loss gives 100 (the spec's
documented case, which is also the limit of the formula). -/
def rsiSpec (prices : List ℚ) (period : ℕ) : ℚ :=
  if prices.length < period + 1 then 50
  else
    let ds := deltasOf (lastN (period + 1) prices)
    let avgGain := (gainsOf ds).sum / (period : ℚ)
    let avgLoss := (lossesOf ds).sum / (period : ℚ)
    if avgLoss = 0 then 100
    else 100 - 100 / (1 + avgGain / avgLoss)

/-! ### Screen-number counters (src/app/components/kiwoom_component.py)

`TrRequestManager.create_request` assigns `str(self._screen_counter)` and
then advances the counter: increment, and reset to 1000 once it exceeds
9999 (the counter starts at 1000).  `OrderManager.create_order_request`
does the same with start/reset value 2000.  We model the assigned key as
the natural number (Python renders it with `str`, which is injective on
numbers, so distinctness is unaffected). -/

/-- Counter advance in `TrRequestManager.create_request`. -/
def trNext (c : ℕ) : ℕ := if c + 1 > 9999 then 1000 else c + 1

/-- Counter advance in `OrderManager.create_order_request`. -/
def orderNext (c : ℕ) : ℕ := if c + 1 > 9999 then 2000 else c + 1

/-- Screen number handed to the `k`-th TR ticket created after the counter
reached state `c` (the ticket receives the current counter value; the
counter then advances). -/
def trScreenAt (c k : ℕ) : ℕ := trNext^[k] c

/-- Screen number handed to the `k`-th order ticket created after the
counter reached state `c`. -/
def orderScreenAt (c k : ℕ) : ℕ := orderNext^[k] c

/-! ### Order timeout handling (`KiwoomComponent._handle_order_timeout`,
src/app/components/kiwoom_component.py lines 713–733)

An entry of `self._pending_orders` carries a `completed` flag, a `result`
payload and a `QEventLoop` the submitting caller blocks on; we keep the
fields the handler touches (`completed`, `result`) plus the loop's
running state.  `time.time()` in the synthetic result is wall clock and is
omitted.  Handlers return the updated table together with a flag recording
whether `event_loop.exit()` was invoked (the waiting caller woken). -/

/-- The order result payload set by the timeout handler. -/
structure OrderResult where
  success : Bool
  order_id : String
  message : String
  timeout : Bool
deriving DecidableEq, Repr

/-- The synthetic result `_handle_order_timeout` installs: success with an
"accepted, result being confirmed" message and a `timeout` marker. -/
def order_timeout_result (oid : String) : OrderResult :=
  { success := true, order_id := oid,
    message := "주문이 접수되었습니다 (결과 확인 중)", timeout := true }

/-- One entry of `self._pending_orders`. -/
structure OrderInfo where
  completed : Bool
  result : Option OrderResult
  loopRunning : Bool
deriving DecidableEq, Repr

/-- Embedding of `KiwoomComponent._handle_order_timeout(order_id)`:
look the order up with `.get`; if present and not completed, install the
synthetic success result, mark completed, and exit the event loop if it is
running; otherwise do nothing.  Second component: whether
`event_loop.exit()` ran. -/
def handle_order_timeout (tbl : String → Option OrderInfo) (oid : String) :
    (String → Option OrderInfo) × Bool :=
  match tbl oid with
  | none => (tbl, false)
  | some info =>
    if info.completed then (tbl, false)
    else
      let updated : OrderInfo :=
        { completed := true, result := some (order_timeout_result oid),
          loopRunning := false }
      (fun k => if k = oid then some updated else tbl k, info.loopRunning)

/-! ### TR event reception (`KiwoomComponent._receive_tr_data`,
src/app/components/kiwoom_component.py lines 424–472)

The whole handler body is wrapped in `try/except` that only logs, so it
never propagates an exception; the embedding is accordingly a total
function.  The raw broker payload (`_extract_raw_data`, a dict of string
fields read from the OCX control) is an input of the event.  The
`callback` a ticket may carry only consumes the result; it does not touch
the table, so it is not part of the state. -/

/-- Result stored on a TR ticket: an error record (non-zero `err_code`) or
the extracted raw data. -/
inductive TrRes where
  | err (code : ℤ) (msg : String) : TrRes
  | data (raw : List (String × String)) : TrRes
deriving DecidableEq, Repr

/-- One entry of `self._pending_tr_requests`. -/
structure TrInfo where
  completed : Bool
  result : Option TrRes
  loopRunning : Bool
deriving DecidableEq, Repr

/-- Embedding of `KiwoomComponent._receive_tr_data`: find the ticket by
`rq_name`; unknown or already-completed tickets are logged and left alone;
otherwise store the error or data result, mark completed, and exit the
ticket's event loop if running.  Second component: whether
`event_loop.exit()` ran. -/
def receive_tr_data (tbl : String → Option TrInfo) (rq_name : String)
    (err_code : ℤ) (msg1 : String) (raw : List (String × String)) :
    (String → Option TrInfo) × Bool :=
  match tbl rq_name with
  | none => (tbl, false)
  | some info =>
    if info.completed then (tbl, false)
    else
      let res : TrRes := if err_code ≠ 0 then .err err_code msg1 else .data raw
      let updated : TrInfo :=
        { completed := true, result := some res, loopRunning := false }
      (fun k => if k = rq_name then some updated else tbl k, info.loopRunning)

/-! ## Theorems -/

/-- Python's `max(0, int(q))` agrees with `max(0, floor(q))`: truncation and
floor differ only on negative arguments, where both are clamped to 0. -/
lemma max_zero_ratTrunc (q : ℚ) : max 0 (ratTrunc q) = max 0 ⌊q⌋ := by
  unfold ratTrunc
  split_ifs with h
  · have h1 : ⌈q⌉ ≤ 0 := by
      rw [Int.ceil_le]
      exact_mod_cast h.le
    have h2 : ⌊q⌋ ≤ 0 := Int.floor_nonpos h.le
    omega
  · rfl

/-- C1 (amended): `calculate_position_size` returns 0 unless the action is
BUY; it never returns a negative quantity; for BUY with a non-zero price it
returns `max 0 ⌊accountBalance × maxPositionRatio × confidence /
currentPrice⌋`; but the division is NOT guarded: for BUY with
`currentPrice = 0` the call raises `ZeroDivisionError` (modelled `none`)
instead of returning 0. -/
theorem C1_position_size_amended (ratio : ℚ) (sig : Signal) (bal price : ℚ) :
    (sig.action ≠ "BUY" → calculate_position_size ratio sig bal price = some 0) ∧
    (∀ n, calculate_position_size ratio sig bal price = some n → 0 ≤ n) ∧
    (sig.action = "BUY" → price ≠ 0 →
      calculate_position_size ratio sig bal price =
        some (max 0 ⌊bal * ratio * sig.confidence.getD (1/2) / price⌋)) ∧
    (sig.action = "BUY" → price = 0 →
      calculate_position_size ratio sig bal price = none) := by
  refine ⟨fun h => by simp [calculate_position_size, h], ?_, fun h hp => ?_, fun h hp => by
    simp [calculate_position_size, h, hp]⟩
  · intro n hn
    by_cases h1 : sig.action = "BUY"
    · by_cases h2 : price = 0
      · rw [calculate_position_size, if_neg (by simp [h1]), if_pos h2] at hn
        exact absurd hn (by simp)
      · rw [calculate_position_size, if_neg (by simp [h1]), if_neg h2] at hn
        simp only [Option.some.injEq] at hn
        subst hn
        exact le_max_left _ _
    · rw [calculate_position_size, if_pos h1] at hn
      simp only [Option.some.injEq] at hn
      omega
  · simp only [calculate_position_size, h, ne_eq, not_true_eq_false, if_false, if_neg hp,
      Option.some.injEq]
    exact max_zero_ratTrunc _

/-- C1 (counterexample): the claim says the call returns 0 rather than
failing whenever `currentPrice ≤ 0`; in fact a BUY signal at price 0 hits
an unguarded float division by zero and the call raises
(`none` in the embedding), for any balance. -/
theorem C1_counterexample :
    calculate_position_size (1/10) ⟨"BUY", some (8/10)⟩ 1000000 0 = none := by
  norm_num [calculate_position_size]

/-- Witness for C1: BUY with confidence 1, ratio 1/10, balance 100,
price 2 buys `⌊100 × (1/10) × 1 / 2⌋ = 5` shares. -/
theorem C1_witness :
    calculate_position_size (1/10) ⟨"BUY", some 1⟩ 100 2 = some 5 := by
  have h := (C1_position_size_amended (1/10) ⟨"BUY", some 1⟩ 100 2).2.2.1 rfl (by norm_num)
  rw [h]
  norm_num

/-- C6: on BUY the new average price is the weighted average of the existing
position and the incoming fill and quantities add; on SELL quantity drops by
the filled amount and a non-positive remainder resets the position to
`{quantity := 0, avg_price := 0}`; and the concrete chain BUY 10@100,
BUY 10@120, SELL 20@110 from an empty position passes through
(10, 100), (20, 110), (0, 0). -/
theorem C6_fill_application :
    (∀ (pos : Position) (qty : ℤ) (price : ℚ), 0 < pos.quantity + qty →
       update_position pos "BUY" qty price =
         { quantity := pos.quantity + qty,
           avg_price := ((pos.quantity : ℚ) * pos.avg_price + (qty : ℚ) * price) /
             ((pos.quantity : ℚ) + (qty : ℚ)) }) ∧
    (∀ (pos : Position) (qty : ℤ) (price : ℚ),
       update_position pos "SELL" qty price =
         if pos.quantity - qty ≤ 0 then { quantity := 0, avg_price := 0 }
         else { quantity := pos.quantity - qty, avg_price := pos.avg_price }) ∧
    (update_position { quantity := 0, avg_price := 0 } "BUY" 10 100 =
        { quantity := 10, avg_price := 100 } ∧
     update_position { quantity := 10, avg_price := 100 } "BUY" 10 120 =
        { quantity := 20, avg_price := 110 } ∧
     update_position { quantity := 20, avg_price := 110 } "SELL" 20 110 =
        { quantity := 0, avg_price := 0 }) := by
  refine ⟨fun pos qty price h => ?_, fun pos qty price => by simp [update_position], ?_, ?_, ?_⟩
  · simp only [update_position, if_pos rfl, if_true]
    rw [if_pos h]
    push_cast
    rfl
  · norm_num [update_position]
  · norm_num [update_position]
  · rfl

/-- Witness for C6: BUY 2@5 onto a position of 2@3 averages to 4@4. -/
theorem C6_witness :
    update_position { quantity := 2, avg_price := 3 } "BUY" 2 5 =
      { quantity := 4, avg_price := 4 } := by
  have h := C6_fill_application.1 { quantity := 2, avg_price := 3 } 2 5 (by norm_num)
  rw [h]
  norm_num

/-- C10: a partial SELL (filled quantity strictly below the held quantity)
only decrements the quantity; the recorded average entry price is
untouched. -/
theorem C10_partial_sell_frame (pos : Position) (qty : ℤ) (price : ℚ)
    (h : qty < pos.quantity) :
    update_position pos "SELL" qty price =
      { quantity := pos.quantity - qty, avg_price := pos.avg_price } := by
  have h2 : ¬ (pos.quantity - qty ≤ 0) := by omega
  simp [update_position, h2]

/-- Witness for C10: selling 4 of 10 shares held at average 7 leaves 6
shares still at average 7. -/
theorem C10_witness :
    update_position { quantity := 10, avg_price := 7 } "SELL" 4 9 =
      { quantity := 6, avg_price := 7 } :=
  C10_partial_sell_frame { quantity := 10, avg_price := 7 } 4 9 (by norm_num)

/-- Characterisation of the BUY branch of `update_position`. -/
lemma update_position_buy (pos : Position) (qty : ℤ) (price : ℚ) :
    update_position pos "BUY" qty price =
      { quantity := pos.quantity + qty,
        avg_price := if pos.quantity + qty > 0 then
            ((pos.quantity : ℚ) * pos.avg_price + (qty : ℚ) * price) /
              ((pos.quantity + qty : ℤ) : ℚ)
          else 0 } := rfl

/-- Characterisation of the SELL branch of `update_position`. -/
lemma update_position_sell (pos : Position) (qty : ℤ) (price : ℚ) :
    update_position pos "SELL" qty price =
      if pos.quantity - qty ≤ 0 then { quantity := 0, avg_price := 0 }
      else { quantity := pos.quantity - qty, avg_price := pos.avg_price } := rfl

/-- Actions other than BUY and SELL leave the position alone. -/
lemma update_position_other (pos : Position) (a : String) (qty : ℤ) (price : ℚ)
    (h1 : a ≠ "BUY") (h2 : a ≠ "SELL") : update_position pos a qty price = pos := by
  simp [update_position, h1, h2]

/-- One fill with a non-negative quantity preserves the position
invariant. -/
lemma posInv_update_position (p : Position) (a : String) (qty : ℤ) (price : ℚ)
    (hp : PosInv p) (hq : 0 ≤ qty) : PosInv (update_position p a qty price) := by
  obtain ⟨hp1, hp2⟩ := hp
  by_cases hb : a = "BUY"
  · subst hb
    rw [update_position_buy]
    exact ⟨by dsimp only; omega, fun h0 => by
      dsimp only at h0 ⊢
      rw [if_neg (by omega)]⟩
  · by_cases hs : a = "SELL"
    · subst hs
      rw [update_position_sell]
      by_cases hz : p.quantity - qty ≤ 0
      · rw [if_pos hz]
        exact ⟨le_refl 0, fun _ => rfl⟩
      · rw [if_neg hz]
        exact ⟨by dsimp only; omega, fun h0 => by dsimp only at h0; omega⟩
    · rw [update_position_other p a qty price hb hs]
      exact ⟨hp1, hp2⟩

/-- A book-level fill preserves the invariant at every code. -/
lemma posInv_update_positions (m : String → Position) (code a : String)
    (qty : ℤ) (price : ℚ) (hm : ∀ k, PosInv (m k)) (hq : 0 ≤ qty) :
    ∀ k, PosInv (update_positions m code a qty price k) := by
  intro k
  unfold update_positions
  by_cases hk : k = code
  · rw [if_pos hk]
    exact posInv_update_position _ _ _ _ (hm k) hq
  · rw [if_neg hk]
    exact hm k

/-- Folding any list of non-negative-quantity fills preserves the
invariant at every code. -/
lemma posInv_apply_fills (fs : List Fill) (m : String → Position)
    (hm : ∀ k, PosInv (m k)) (hf : ∀ f ∈ fs, 0 ≤ f.qty) :
    ∀ k, PosInv (apply_fills m fs k) := by
  induction fs generalizing m with
  | nil => exact hm
  | cons f fs ih =>
    have hstep : apply_fills m (f :: fs) =
        apply_fills (update_positions m f.code f.action f.qty f.price) fs := rfl
    rw [hstep]
    exact ih _
      (posInv_update_positions _ _ _ _ _ hm (hf f (List.mem_cons_self f fs)))
      (fun g hg => hf g (List.mem_cons_of_mem f hg))

/-- C7: starting from the empty position book, any sequence of fills with
non-negative quantities keeps every position's quantity non-negative, and
a zero quantity always comes with a zero average price.  (Every prefix of
such a sequence is itself such a sequence, so the invariant holds after
each operation.) -/
theorem C7_position_invariant (fs : List Fill) (hf : ∀ f ∈ fs, 0 ≤ f.qty) :
    ∀ code, 0 ≤ (apply_fills emptyPositions fs code).quantity ∧
      ((apply_fills emptyPositions fs code).quantity = 0 →
        (apply_fills emptyPositions fs code).avg_price = 0) :=
  fun code => posInv_apply_fills fs emptyPositions
    (fun _ => ⟨le_refl 0, fun _ => rfl⟩) hf code

/-- Witness for C7: BUY 10@100 then SELL 4@120 on one code. -/
theorem C7_witness :
    0 ≤ (apply_fills emptyPositions
        [⟨"005930", "BUY", 10, 100⟩, ⟨"005930", "SELL", 4, 120⟩] "005930").quantity ∧
      ((apply_fills emptyPositions
        [⟨"005930", "BUY", 10, 100⟩, ⟨"005930", "SELL", 4, 120⟩] "005930").quantity = 0 →
        (apply_fills emptyPositions
        [⟨"005930", "BUY", 10, 100⟩, ⟨"005930", "SELL", 4, 120⟩] "005930").avg_price = 0) :=
  C7_position_invariant
    [⟨"005930", "BUY", 10, 100⟩, ⟨"005930", "SELL", 4, 120⟩]
    (by decide) "005930"

/-- Closed form of the TR screen counter: starting from any reachable
counter state `c ∈ [1000, 9999]`, the key of the `k`-th creation is
`1000 + (c - 1000 + k) % 9000`. -/
lemma trScreenAt_formula (c k : ℕ) (hc1 : 1000 ≤ c) (hc2 : c ≤ 9999) :
    trScreenAt c k = 1000 + (c - 1000 + k) % 9000 := by
  induction k with
  | zero =>
    unfold trScreenAt
    simp only [Function.iterate_zero, id_eq]
    omega
  | succ k ih =>
    unfold trScreenAt at ih ⊢
    rw [Function.iterate_succ_apply', ih]
    unfold trNext
    split_ifs <;> omega

/-- Closed form of the order screen counter: starting from any reachable
counter state `c ∈ [2000, 9999]`, the key of the `k`-th creation is
`2000 + (c - 2000 + k) % 8000`. -/
lemma orderScreenAt_formula (c k : ℕ) (hc1 : 2000 ≤ c) (hc2 : c ≤ 9999) :
    orderScreenAt c k = 2000 + (c - 2000 + k) % 8000 := by
  induction k with
  | zero =>
    unfold orderScreenAt
    simp only [Function.iterate_zero, id_eq]
    omega
  | succ k ih =>
    unfold orderScreenAt at ih ⊢
    rw [Function.iterate_succ_apply', ih]
    unfold orderNext
    split_ifs <;> omega

/-- C2 (amended): screen numbers handed to consecutive ticket creations of
one kind are pairwise distinct as long as at most 9000 TR tickets
(respectively 8000 order tickets) are created, from any reachable counter
state.  Beyond that the counter has wrapped regardless of whether earlier
tickets resolved, so keys can repeat among simultaneously pending
tickets. -/
theorem C2_screen_keys_amended :
    (∀ c, 1000 ≤ c → c ≤ 9999 → ∀ i j, i < j → j < 9000 →
       trScreenAt c i ≠ trScreenAt c j) ∧
    (∀ c, 2000 ≤ c → c ≤ 9999 → ∀ i j, i < j → j < 8000 →
       orderScreenAt c i ≠ orderScreenAt c j) := by
  constructor
  · intro c hc1 hc2 i j hij hj
    rw [trScreenAt_formula c i hc1 hc2, trScreenAt_formula c j hc1 hc2]
    omega
  · intro c hc1 hc2 i j hij hj
    rw [orderScreenAt_formula c i hc1 hc2, orderScreenAt_formula c j hc1 hc2]
    omega

/-- C2 (counterexample): the claim promises pairwise-distinct keys for
every number N of simultaneously pending same-kind tickets, but with
N = 9001 TR creations from the initial counter state 1000, the 1st and the
9001st ticket receive the same screen number — the counter wraps without
checking that any ticket resolved. -/
theorem C2_counterexample : trScreenAt 1000 0 = trScreenAt 1000 9000 := by
  rw [trScreenAt_formula 1000 0 (by norm_num) (by norm_num),
    trScreenAt_formula 1000 9000 (by norm_num) (by norm_num)]

/-- Witness for C2: the first two TR tickets get distinct screen
numbers. -/
theorem C2_witness : trScreenAt 1000 0 ≠ trScreenAt 1000 1 :=
  C2_screen_keys_amended.1 1000 (by norm_num) (by norm_num) 0 1 (by norm_num) (by norm_num)

/-- Length of a last-`n` window when the list is long enough. -/
lemma lastN_length (n : ℕ) (l : List ℚ) (h : n ≤ l.length) : (lastN n l).length = n := by
  unfold lastN
  rw [List.length_drop]
  omega

/-- `np.diff` shortens a list by one. -/
lemma deltasOf_length (l : List ℚ) : (deltasOf l).length = l.length - 1 := by
  unfold deltasOf
  rw [List.length_zipWith, List.length_tail]
  omega

/-- C3: `calculate_rsi` agrees with the spec's reference definition on
every price series and period (the source averages over the length of the
delta array, the spec over `period`; these coincide because the window has
exactly `period + 1` samples), and the spec's worked example
`rsi([10, 11, 10, 12], 3) = 75` holds. -/
theorem C3_rsi_refinement :
    (∀ (prices : List ℚ) (period : ℕ),
      calculate_rsi prices period = rsiSpec prices period) ∧
    calculate_rsi [10, 11, 10, 12] 3 = 75 := by
  constructor
  · intro prices period
    unfold calculate_rsi rsiSpec
    by_cases h : prices.length < period + 1
    · rw [if_pos h, if_pos h]
    · rw [if_neg h, if_neg h]
      have hw : (lastN (period + 1) prices).length = period + 1 :=
        lastN_length _ _ (by omega)
      have hd : (deltasOf (lastN (period + 1) prices)).length = period := by
        rw [deltasOf_length, hw]
        omega
      have hg : (gainsOf (deltasOf (lastN (period + 1) prices))).length = period := by
        unfold gainsOf
        rw [List.length_map, hd]
      have hl : (lossesOf (deltasOf (lastN (period + 1) prices))).length = period := by
        unfold lossesOf
        rw [List.length_map, hd]
      dsimp only
      unfold listMean
      rw [hg, hl]
  · norm_num [calculate_rsi, deltasOf, lastN, gainsOf, lossesOf, listMean]

/-- C4: with at least `period + 1` samples and an average loss of exactly
0 over the window, `calculate_rsi` returns 100 regardless of the average
gain — not the neutral 50. -/
theorem C4_rsi_zero_loss (prices : List ℚ) (period : ℕ)
    (h : period + 1 ≤ prices.length)
    (h0 : listMean (lossesOf (deltasOf (lastN (period + 1) prices))) = 0) :
    calculate_rsi prices period = 100 := by
  unfold calculate_rsi
  rw [if_neg (by omega)]
  dsimp only
  rw [if_pos h0]

/-- Witness for C4: the all-flat series `[5, 5, 5, 5]` with period 3 —
the documented quirk — yields 100. -/
theorem C4_witness : calculate_rsi [5, 5, 5, 5] 3 = 100 :=
  C4_rsi_zero_loss [5, 5, 5, 5] 3 (by norm_num)
    (by norm_num [listMean, lossesOf, deltasOf, lastN])

/-- The mean of a list of non-negative rationals is non-negative. -/
lemma listMean_nonneg (l : List ℚ) (h : ∀ x ∈ l, 0 ≤ x) : 0 ≤ listMean l :=
  div_nonneg (List.sum_nonneg h) (Nat.cast_nonneg _)

/-- Every entry of the gains array is non-negative. -/
lemma gainsOf_mem_nonneg (ds : List ℚ) : ∀ x ∈ gainsOf ds, 0 ≤ x := by
  intro x hx
  unfold gainsOf at hx
  rw [List.mem_map] at hx
  obtain ⟨d, _, rfl⟩ := hx
  split_ifs with hd
  · exact hd.le
  · exact le_refl 0

/-- Every entry of the losses array is non-negative. -/
lemma lossesOf_mem_nonneg (ds : List ℚ) : ∀ x ∈ lossesOf ds, 0 ≤ x := by
  intro x hx
  unfold lossesOf at hx
  rw [List.mem_map] at hx
  obtain ⟨d, _, rfl⟩ := hx
  split_ifs with hd
  · linarith
  · exact le_refl 0

/-- C5: on every non-empty price series and every period, the RSI lies in
`[0, 100]`. -/
theorem C5_rsi_bounds (prices : List ℚ) (period : ℕ) (h : prices ≠ []) :
    0 ≤ calculate_rsi prices period ∧ calculate_rsi prices period ≤ 100 := by
  unfold calculate_rsi
  by_cases h1 : prices.length < period + 1
  · rw [if_pos h1]
    norm_num
  · rw [if_neg h1]
    dsimp only
    have hg : 0 ≤ listMean (gainsOf (deltasOf (lastN (period + 1) prices))) :=
      listMean_nonneg _ (gainsOf_mem_nonneg _)
    have hl : 0 ≤ listMean (lossesOf (deltasOf (lastN (period + 1) prices))) :=
      listMean_nonneg _ (lossesOf_mem_nonneg _)
    by_cases h2 : listMean (lossesOf (deltasOf (lastN (period + 1) prices))) = 0
    · rw [if_pos h2]
      norm_num
    · rw [if_neg h2]
      have hrs : 0 ≤ listMean (gainsOf (deltasOf (lastN (period + 1) prices))) /
          listMean (lossesOf (deltasOf (lastN (period + 1) prices))) := div_nonneg hg hl
      have hb : (1 : ℚ) ≤ 1 + listMean (gainsOf (deltasOf (lastN (period + 1) prices))) /
          listMean (lossesOf (deltasOf (lastN (period + 1) prices))) := by linarith
      have hpos : 0 < (100 : ℚ) / (1 + listMean (gainsOf (deltasOf (lastN (period + 1) prices))) /
          listMean (lossesOf (deltasOf (lastN (period + 1) prices)))) :=
        div_pos (by norm_num) (by linarith)
      have hle : (100 : ℚ) / (1 + listMean (gainsOf (deltasOf (lastN (period + 1) prices))) /
          listMean (lossesOf (deltasOf (lastN (period + 1) prices)))) ≤ 100 :=
        div_le_self (by norm_num) hb
      constructor <;> linarith

/-- Witness for C5: a short series falls back to the neutral 50, inside
`[0, 100]`. -/
theorem C5_witness : 0 ≤ calculate_rsi [1, 2] 5 ∧ calculate_rsi [1, 2] 5 ≤ 100 :=
  C5_rsi_bounds [1, 2] 5 (by simp)

/-- A pending, uncompleted order hit by the timeout: the synthetic result
is installed, the entry is marked completed, and the event loop is exited
when it was running. -/
lemma handle_order_timeout_pending (tbl : String → Option OrderInfo) (oid : String)
    (info : OrderInfo) (hlook : tbl oid = some info) (hc : info.completed = false) :
    handle_order_timeout tbl oid =
      (fun k => if k = oid then
          some { completed := true, result := some (order_timeout_result oid),
                 loopRunning := false }
        else tbl k, info.loopRunning) := by
  simp [handle_order_timeout, hlook, hc]

/-- An already-completed order hit by the timeout: nothing changes. -/
lemma handle_order_timeout_completed (tbl : String → Option OrderInfo) (oid : String)
    (info : OrderInfo) (hlook : tbl oid = some info) (hc : info.completed = true) :
    handle_order_timeout tbl oid = (tbl, false) := by
  simp [handle_order_timeout, hlook, hc]

/-- C8: when the timeout fires on a pending, uncompleted order, the order
is resolved with the synthetic success-with-caveat result (success, the
"accepted but unconfirmed" message, timeout marker) rather than a failure,
the waiting caller is woken exactly when its loop was running, and a
repeated timeout on the already-resolved entry changes nothing (resolution
happens exactly once); when the order was already completed the handler
changes nothing. -/
theorem C8_order_timeout (tbl : String → Option OrderInfo) (oid : String)
    (info : OrderInfo) (hlook : tbl oid = some info) :
    (info.completed = false →
      (handle_order_timeout tbl oid).1 oid =
        some { completed := true, result := some (order_timeout_result oid),
               loopRunning := false } ∧
      (order_timeout_result oid).success = true ∧
      (order_timeout_result oid).timeout = true ∧
      (handle_order_timeout tbl oid).2 = info.loopRunning ∧
      handle_order_timeout (handle_order_timeout tbl oid).1 oid =
        ((handle_order_timeout tbl oid).1, false)) ∧
    (info.completed = true → handle_order_timeout tbl oid = (tbl, false)) := by
  constructor
  · intro hc
    rw [handle_order_timeout_pending tbl oid info hlook hc]
    refine ⟨by simp, rfl, rfl, rfl, ?_⟩
    exact handle_order_timeout_completed _ oid
      { completed := true, result := some (order_timeout_result oid), loopRunning := false }
      (by simp) rfl
  · exact handle_order_timeout_completed tbl oid info hlook

/-- Witness for C8: one pending order with a running loop is resolved into
the synthetic timeout result. -/
theorem C8_witness :
    (handle_order_timeout
        (fun k => if k = "O1" then some ⟨false, none, true⟩ else none) "O1").1 "O1" =
      some ⟨true, some (order_timeout_result "O1"), false⟩ :=
  ((C8_order_timeout (fun k => if k = "O1" then some ⟨false, none, true⟩ else none)
      "O1" ⟨false, none, true⟩ (by simp)).1 rfl).1

/-- A TR event whose correlation id matches no pending ticket is only
logged: table untouched, no loop exited. -/
lemma receive_tr_data_none (tbl : String → Option TrInfo) (rq : String)
    (err : ℤ) (msg : String) (raw : List (String × String)) (h : tbl rq = none) :
    receive_tr_data tbl rq err msg raw = (tbl, false) := by
  simp [receive_tr_data, h]

/-- A TR event for an already-completed ticket is a duplicate: table
untouched, no loop exited. -/
lemma receive_tr_data_completed (tbl : String → Option TrInfo) (rq : String)
    (err : ℤ) (msg : String) (raw : List (String × String)) (info : TrInfo)
    (hlook : tbl rq = some info) (hc : info.completed = true) :
    receive_tr_data tbl rq err msg raw = (tbl, false) := by
  simp [receive_tr_data, hlook, hc]

/-- C9: a broker TR event with an unmatched correlation id, or one whose
ticket is already completed, leaves the ticket table (hence every ticket's
result) unchanged and resolves nothing; the embedding is a total function,
mirroring the handler's catch-all `try/except` that never re-raises. -/
theorem C9_orphan_duplicate_ignored (tbl : String → Option TrInfo) (rq : String)
    (err : ℤ) (msg : String) (raw : List (String × String)) :
    (tbl rq = none → receive_tr_data tbl rq err msg raw = (tbl, false)) ∧
    (∀ info, tbl rq = some info → info.completed = true →
      receive_tr_data tbl rq err msg raw = (tbl, false)) :=
  ⟨fun h => receive_tr_data_none tbl rq err msg raw h,
   fun info hlook hc => receive_tr_data_completed tbl rq err msg raw info hlook hc⟩

/-- Witness for C9: an event against an empty ticket table is a no-op. -/
theorem C9_witness :
    receive_tr_data (fun _ => none) "opt10001_deadbeef" 0 "" [] =
      (fun _ => none, false) :=
  (C9_orphan_duplicate_ignored (fun _ => none) "opt10001_deadbeef" 0 "" []).1 rfl

end KiwoomAuto



